import Mathlib

/-!
Verification development for the MemeBot backend orchestration core.

The definitions below are a shallow embedding of the Python source:

* `services/meme_scraper.py` — the trend lifecycle tracker
  (`analyze_and_store_trends`, `_determine_lifecycle_stage`);
* `api/server.py` — the review queue transition handlers
  (`approve_queue_item`, `reject_queue_item`, `mark_queue_item_posted`);
* `bot/scheduler.py` — job registration (`start` and the `_schedule_*`
  helpers), `generate_content_to_queue`, `post_meme`;
* `bot/content_generator.py` — `generate_meme_tweet`;
* `services/llm_service.py` — `_parse_meme_response`,
  `evaluate_generated_meme`.

Conventions: Python floats are modelled as rationals; `datetime.utcnow()`
is an abstract tick passed in as a natural number; SQLAlchemy sessions
become explicit list-valued stores threaded through each function; the
external LLM and Twitter adapters become function parameters, indexed by
call count where the number of calls matters.
-/

/-- Python round-half-to-even on a rational, as used by the builtin
round function (its float representation issues do not arise at any of
the concrete values evaluated in this development). -/
def pyRound (q : ℚ) : ℤ :=
  let f : ℤ := q.num.fdiv (q.den : ℤ)
  let r : ℚ := q - (f : ℚ)
  if r < 1/2 then f
  else if 1/2 < r then f + 1
  else if f % 2 = 0 then f else f + 1

/-- Python round(x, 2). -/
def round2 (q : ℚ) : ℚ := (pyRound (q * 100) : ℚ) / 100

/-- One raw trend observation, the dictionary shape fed to
MemeScraper.analyze_and_store_trends. -/
structure TrendObs where
  name : String
  description : String
  popularity_score : ℚ
  source_platform : String
  url : String
deriving Repr, DecidableEq

/-- A persisted MemeTrend row (database/models.py), restricted to the
fields the tracker reads or writes. -/
structure MemeTrend where
  name : String
  description : String
  popularity_score : ℚ
  velocity : ℚ
  lifecycle_stage : String
  source_platform : String
  first_seen : ℕ
  last_seen : ℕ
  example_urls : List String
deriving Repr, DecidableEq

/-- MemeScraper._determine_lifecycle_stage, translated branch for
branch from services/meme_scraper.py lines 208 to 235. -/
def determine_lifecycle_stage (popularity_score velocity : ℚ) : String :=
  if popularity_score < 20 then
    if velocity > 50 then "rising" else "new"
  else if popularity_score < 60 then
    if velocity > 20 then "rising"
    else if velocity < -20 then "declining"
    else "stable"
  else
    if velocity < -10 then "declining" else "peak"

/-- The update branch of analyze_and_store_trends (lines 161 to 178):
the source assigns the new popularity_score to the row first, then
guards on and divides by the row's (already overwritten) score when
computing velocity, then recomputes the stage. -/
def update_existing_trend (now : ℕ) (obs : TrendObs) (t : MemeTrend) : MemeTrend :=
  let t1 := { t with popularity_score := obs.popularity_score, last_seen := now }
  let t2 :=
    if t1.popularity_score > 0 then
      { t1 with velocity :=
          round2 ((obs.popularity_score - t1.popularity_score) / t1.popularity_score * 100) }
    else t1
  { t2 with lifecycle_stage := determine_lifecycle_stage t2.popularity_score t2.velocity }

/-- The creation branch of analyze_and_store_trends (lines 180 to 196). -/
def new_trend (now : ℕ) (obs : TrendObs) : MemeTrend :=
  { name := obs.name
    description := obs.description
    popularity_score := obs.popularity_score
    velocity := 0
    lifecycle_stage := "new"
    source_platform := obs.source_platform
    first_seen := now
    last_seen := now
    example_urls := [obs.url] }

/-- Replace the first element satisfying p, leaving the rest unchanged;
this is the effect of mutating the row returned by query(...).first(). -/
def updateFirst {α : Type} (p : α → Bool) (f : α → α) : List α → List α
  | [] => []
  | x :: xs => if p x then f x :: xs else x :: updateFirst p f xs

/-- Process one observation against the store: lookup by exact name,
update in place when present, append a fresh row otherwise. -/
def store_one_trend (now : ℕ) (store : List MemeTrend) (obs : TrendObs) : List MemeTrend :=
  if store.any (fun t => t.name == obs.name) then
    updateFirst (fun t => t.name == obs.name) (update_existing_trend now obs) store
  else
    store ++ [new_trend now obs]

/-- MemeScraper.analyze_and_store_trends: each observation is committed
before the next is looked up, so the fold threads the store through. -/
def analyze_and_store_trends (now : ℕ) (store : List MemeTrend)
    (trends : List TrendObs) : List MemeTrend :=
  trends.foldl (store_one_trend now) store

/-- The first observation of the end-to-end scenario in the claims. -/
def obsX15 : TrendObs :=
  { name := "X", description := "", popularity_score := 15
    source_platform := "s", url := "" }

/-- The second observation of the end-to-end scenario in the claims. -/
def obsX40 : TrendObs :=
  { name := "X", description := "", popularity_score := 40
    source_platform := "s", url := "" }

/-- C1: the claim states that re-ingesting name X at rawScore 40 after
rawScore 15 yields velocity 166.67 and stage rising. The source
overwrites the stored popularity_score before computing the velocity
delta, so the computed velocity is identically 0 and the stage at score
40 is stable: the code contradicts its own stated intent of a rate of
change. This theorem evaluates the embedded code at the failing input. -/
theorem C1_velocity_zero_on_update :
    analyze_and_store_trends 1 (analyze_and_store_trends 0 [] [obsX15]) [obsX40] =
      [{ name := "X", description := "", popularity_score := 40, velocity := 0,
         lifecycle_stage := "stable", source_platform := "s",
         first_seen := 0, last_seen := 1, example_urls := [""] }] := by
  norm_num [analyze_and_store_trends, store_one_trend, update_existing_trend, new_trend,
    determine_lifecycle_stage, round2, pyRound, updateFirst, obsX15, obsX40]

/-- The stage assignment table of the specification, written from the
words of the spec and of claim C5: rows evaluated top to bottom, first
match wins, with the 20 to 60 band taking score 20 and the final two
rows taking score 60. -/
def classify_spec (s v : ℚ) : String :=
  if s < 20 ∧ v > 50 then "rising"
  else if s < 20 then "new"
  else if 20 ≤ s ∧ s < 60 ∧ v > 20 then "rising"
  else if 20 ≤ s ∧ s < 60 ∧ v < -20 then "declining"
  else if 20 ≤ s ∧ s < 60 then "stable"
  else if 60 ≤ s ∧ v < -10 then "declining"
  else "peak"

/-- C5: the lifecycle classifier in the source is a total deterministic
function of the score and velocity pair and agrees with the stage table
of the spec at every rational input, boundary scores 20 and 60
included. -/
theorem C5_lifecycle_table :
    ∀ s v : ℚ, determine_lifecycle_stage s v = classify_spec s v := by
  intro s v
  rcases lt_or_le s 20 with h1 | h1
  · rcases le_or_lt v 50 with h2 | h2
    · simp [determine_lifecycle_stage, classify_spec, h1, not_lt.2 h2]
    · simp [determine_lifecycle_stage, classify_spec, h1, h2]
  · have h1n : ¬ s < 20 := not_lt.2 h1
    rcases lt_or_le s 60 with h60 | h60
    · by_cases h2 : v > 20
      · simp [determine_lifecycle_stage, classify_spec, h1n, h1, h60, h2]
      · by_cases h3 : v < -20
        · simp [determine_lifecycle_stage, classify_spec, h1n, h1, h60, h2, h3]
        · simp [determine_lifecycle_stage, classify_spec, h1n, h1, h60, h2, h3]
    · have h60n : ¬ s < 60 := not_lt.2 h60
      by_cases h2 : v < -10
      · simp [determine_lifecycle_stage, classify_spec, h1n, h60n, h60, h2]
      · simp [determine_lifecycle_stage, classify_spec, h1n, h60n, h60, h2]

/-- Updating a trend in place never changes its name. -/
theorem update_existing_trend_name (now : ℕ) (obs : TrendObs) (t : MemeTrend) :
    (update_existing_trend now obs t).name = t.name := by
  unfold update_existing_trend
  dsimp only
  split <;> rfl

/-- Replacing the first match with a name-preserving function leaves the
list of names unchanged. -/
theorem names_updateFirst (p : MemeTrend → Bool) (f : MemeTrend → MemeTrend)
    (hf : ∀ t, (f t).name = t.name) :
    ∀ l : List MemeTrend,
      (updateFirst p f l).map (fun t => t.name) = l.map (fun t => t.name) := by
  intro l
  induction l with
  | nil => rfl
  | cons x xs ih => by_cases h : p x <;> simp [updateFirst, h, hf, ih]

/-- Processing a single observation preserves distinctness of the
stored trend names. -/
theorem nodup_store_one_trend (now : ℕ) (obs : TrendObs) (store : List MemeTrend)
    (h : (store.map (fun t => t.name)).Nodup) :
    ((store_one_trend now store obs).map (fun t => t.name)).Nodup := by
  unfold store_one_trend
  by_cases hmem : store.any (fun t => t.name == obs.name) = true
  · rw [if_pos hmem,
      names_updateFirst _ _ (fun t => update_existing_trend_name now obs t)]
    exact h
  · rw [if_neg hmem]
    have hnot : obs.name ∉ store.map (fun t => t.name) := by
      intro hc
      rcases List.mem_map.mp hc with ⟨t, ht, hname⟩
      exact hmem (List.any_eq_true.mpr ⟨t, ht, by simp [hname]⟩)
    simp [List.nodup_append, h, hnot, new_trend]

/-- C6: a previously unseen name is appended as a fresh record with the
raw score, zero velocity, the stage new and both timestamps set to the
ingestion tick, and a batch of observations never duplicates a stored
name. -/
theorem C6_new_trend_creation_and_uniqueness
    (now : ℕ) (store : List MemeTrend) (obs : TrendObs) (obss : List TrendObs) :
    (store.any (fun t => t.name == obs.name) = false →
      analyze_and_store_trends now store [obs] = store ++ [new_trend now obs]
        ∧ (new_trend now obs).name = obs.name
        ∧ (new_trend now obs).popularity_score = obs.popularity_score
        ∧ (new_trend now obs).velocity = 0
        ∧ (new_trend now obs).lifecycle_stage = "new"
        ∧ (new_trend now obs).first_seen = now
        ∧ (new_trend now obs).last_seen = now)
    ∧ ((store.map (fun t => t.name)).Nodup →
      ((analyze_and_store_trends now store obss).map (fun t => t.name)).Nodup) := by
  constructor
  · intro h
    refine ⟨?_, rfl, rfl, rfl, rfl, rfl, rfl⟩
    simp [analyze_and_store_trends, store_one_trend, h]
  · intro h
    induction obss generalizing store with
    | nil => exact h
    | cons o os ih =>
        simpa [analyze_and_store_trends] using
          ih (store_one_trend now store o) (nodup_store_one_trend now o store h)

/-- A closed instance of C6: ingesting obsX15 into the empty store
creates exactly the expected record, and ingesting the scenario batch
keeps the names distinct. -/
theorem C6_new_trend_creation_and_uniqueness_witness :
    (([] : List MemeTrend).any (fun t => t.name == obsX15.name) = false
      ∧ analyze_and_store_trends 0 [] [obsX15] = [] ++ [new_trend 0 obsX15]
      ∧ (new_trend 0 obsX15).lifecycle_stage = "new"
      ∧ (new_trend 0 obsX15).velocity = 0)
    ∧ ((([] : List MemeTrend).map (fun t => t.name)).Nodup
      ∧ ((analyze_and_store_trends 0 [] [obsX15, obsX40]).map (fun t => t.name)).Nodup) := by
  have h := C6_new_trend_creation_and_uniqueness 0 [] obsX15 [obsX15, obsX40]
  have h1 := h.1 (by rfl)
  exact ⟨⟨by rfl, h1.1, h1.2.2.2.2.1, h1.2.2.2.1⟩, ⟨by simp, h.2 (by simp)⟩⟩

/-- A ContentQueue row (database/models.py), restricted to the fields
the review transition handlers in api/server.py read or write. -/
structure ContentQueueItem where
  id : ℕ
  content : String
  status : String
  reviewer_notes : String
  reviewed_at : Option ℕ
  posted_at : Option ℕ
  posted_tweet_id : String
deriving Repr, DecidableEq

/-- Handler approve_queue_item (api/server.py lines 463 to 489), acting
on the looked-up row: the source assigns the new status with no check
of the current one. -/
def approve_queue_item (now : ℕ) (notes : String) (item : ContentQueueItem) :
    ContentQueueItem :=
  { item with status := "approved", reviewed_at := some now, reviewer_notes := notes }

/-- Handler reject_queue_item (api/server.py lines 492 to 518). -/
def reject_queue_item (now : ℕ) (notes : String) (item : ContentQueueItem) :
    ContentQueueItem :=
  { item with status := "rejected", reviewed_at := some now, reviewer_notes := notes }

/-- Handler mark_queue_item_posted (api/server.py lines 521 to 547). -/
def mark_queue_item_posted (now : ℕ) (tweet_id : String) (item : ContentQueueItem) :
    ContentQueueItem :=
  { item with status := "posted", posted_at := some now, posted_tweet_id := tweet_id }

/-- A queue item already in the terminal status rejected. -/
def rejectedItem : ContentQueueItem :=
  { id := 1, content := "t", status := "rejected", reviewer_notes := ""
    reviewed_at := none, posted_at := none, posted_tweet_id := "" }

/-- C2 fails on the code: applying approve to an item whose status is
the terminal rejected does not leave the status unchanged, it moves the
item to approved. -/
theorem C2_terminal_not_protected :
    (approve_queue_item 2 "" rejectedItem).status = "approved"
      ∧ (approve_queue_item 2 "" rejectedItem).status ≠ rejectedItem.status := by
  constructor
  · rfl
  · intro h
    simp [approve_queue_item, rejectedItem] at h

/-- C2 amended: the three transition handlers assign their target
status unconditionally, whatever the current status is; approve always
yields approved (so it never moves an item back to pending), reject
always yields rejected, and mark-posted always yields posted, with no
transition refused on account of the current status. -/
theorem C2_transitions_unconditional
    (now : ℕ) (notes tweet_id : String) (item : ContentQueueItem) :
    (approve_queue_item now notes item).status = "approved"
      ∧ (reject_queue_item now notes item).status = "rejected"
      ∧ (mark_queue_item_posted now tweet_id item).status = "posted" := by
  exact ⟨rfl, rfl, rfl⟩

/-- The actions MemeBot binds to scheduled jobs. -/
inductive JobAction where
  | generateContentToQueue
  | postMemeAction
  | scrapeTrends
  | updateMetrics
  | learningSession
  | collectAnalytics
deriving Repr, DecidableEq, BEq

/-- The trigger kinds used by MemeBot: a fixed interval, a daily cron
time, and the run-once date trigger, which by its semantics fires at
most once. -/
inductive JobTrigger where
  | interval (hours : ℕ)
  | cron (hour minute : ℕ)
  | date
deriving Repr, DecidableEq, BEq

/-- A registration made through scheduler.add_job. -/
structure Job where
  id : String
  label : String
  trigger : JobTrigger
  action : JobAction
deriving Repr, DecidableEq

/-- MemeBot._schedule_posting (bot/scheduler.py lines 74 to 116): the
primary content slot depends on the generator-mode flag, and in either
mode the recurring job gets an immediate run-once twin. -/
def schedule_posting (generatorMode : Bool) (generateHours postHours : ℕ) : List Job :=
  if generatorMode then
    [ { id := "generate_content", label := "Generate Content to Queue"
        trigger := JobTrigger.interval generateHours
        action := JobAction.generateContentToQueue },
      { id := "initial_generate", label := "Initial Content Generation"
        trigger := JobTrigger.date
        action := JobAction.generateContentToQueue } ]
  else
    [ { id := "post_meme", label := "Post Meme Tweet"
        trigger := JobTrigger.interval postHours
        action := JobAction.postMemeAction },
      { id := "initial_post", label := "Initial Post"
        trigger := JobTrigger.date
        action := JobAction.postMemeAction } ]

/-- MemeBot._schedule_trend_scraping (lines 118 to 137). -/
def schedule_trend_scraping (scrapeHours : ℕ) : List Job :=
  [ { id := "scrape_trends", label := "Scrape Meme Trends"
      trigger := JobTrigger.interval scrapeHours
      action := JobAction.scrapeTrends },
    { id := "initial_scrape", label := "Initial Trend Scrape"
      trigger := JobTrigger.date
      action := JobAction.scrapeTrends } ]

/-- MemeBot._schedule_metric_updates (lines 139 to 150): only the
recurring two-hour job, no run-once twin. -/
def schedule_metric_updates : List Job :=
  [ { id := "update_metrics", label := "Update Tweet Metrics"
      trigger := JobTrigger.interval 2
      action := JobAction.updateMetrics } ]

/-- MemeBot._schedule_learning (lines 152 to 163): only the daily cron
job, no run-once twin. -/
def schedule_learning : List Job :=
  [ { id := "learning_session", label := "Daily Learning Session"
      trigger := JobTrigger.cron 2 0
      action := JobAction.learningSession } ]

/-- MemeBot._schedule_analytics (lines 165 to 176): only the daily cron
job, no run-once twin. -/
def schedule_analytics : List Job :=
  [ { id := "collect_analytics", label := "Daily Analytics Collection"
      trigger := JobTrigger.cron 0 0
      action := JobAction.collectAnalytics } ]

/-- The full registration performed by MemeBot.start when the bot is
enabled. -/
def start_jobs (generatorMode : Bool) (generateHours postHours scrapeHours : ℕ) :
    List Job :=
  schedule_posting generatorMode generateHours postHours
    ++ schedule_trend_scraping scrapeHours
    ++ schedule_metric_updates
    ++ schedule_learning
    ++ schedule_analytics

/-- The action bound to the primary content slot in each mode. -/
def primary_action (generatorMode : Bool) : JobAction :=
  if generatorMode then JobAction.generateContentToQueue else JobAction.postMemeAction

/-- Recognizes a run-once twin for the given action. -/
def is_one_shot_for (a : JobAction) (j : Job) : Bool :=
  (j.trigger == JobTrigger.date) && (j.action == a)

/-- C3 fails on the code: the metric-refresh job is registered as
recurring at startup, yet no run-once twin for it is registered, so not
every recurring job gets an immediate one-shot twin. -/
theorem C3_metric_refresh_has_no_twin :
    ((start_jobs true 4 6 1).any
        (fun j => (j.trigger == JobTrigger.interval 2)
          && (j.action == JobAction.updateMetrics))) = true
      ∧ ((start_jobs true 4 6 1).any (is_one_shot_for JobAction.updateMetrics)) = false := by
  exact ⟨rfl, rfl⟩

/-- C3 amended: at startup, exactly the primary-content and
trend-scrape recurring jobs get an immediate run-once twin, each twin
carrying an id distinct from every other registered id (all registered
ids are pairwise distinct); the metric-refresh, daily-learning and
daily-analytics jobs get no twin. -/
theorem C3_one_shot_twins (generatorMode : Bool) (generateHours postHours scrapeHours : ℕ) :
    ((start_jobs generatorMode generateHours postHours scrapeHours).filter
        (is_one_shot_for (primary_action generatorMode))).length = 1
    ∧ ((start_jobs generatorMode generateHours postHours scrapeHours).filter
        (is_one_shot_for JobAction.scrapeTrends)).length = 1
    ∧ (start_jobs generatorMode generateHours postHours scrapeHours).filter
        (is_one_shot_for JobAction.updateMetrics) = []
    ∧ (start_jobs generatorMode generateHours postHours scrapeHours).filter
        (is_one_shot_for JobAction.learningSession) = []
    ∧ (start_jobs generatorMode generateHours postHours scrapeHours).filter
        (is_one_shot_for JobAction.collectAnalytics) = []
    ∧ ((start_jobs generatorMode generateHours postHours scrapeHours).map
        (fun j => j.id)).Nodup := by
  cases generatorMode <;>
    refine ⟨rfl, rfl, rfl, rfl, rfl, ?_⟩ <;>
    · simp only [start_jobs, schedule_posting, schedule_trend_scraping,
        schedule_metric_updates, schedule_learning, schedule_analytics,
        Bool.false_eq_true, if_false, if_true, List.append_assoc, List.cons_append,
        List.nil_append, List.map_cons, List.map_nil]
      decide

/-- The opening curly brace character, written by code point. -/
def lbraceChar : Char := Char.ofNat 123

/-- The closing curly brace character, written by code point. -/
def rbraceChar : Char := Char.ofNat 125

/-- The substring between the first opening brace and the last closing
brace inclusive, the slice content[start:end] that
LLMService._parse_meme_response hands to the JSON decoder. -/
def brace_slice (content : String) : String :=
  let l := content.toList
  let start := l.indexOf lbraceChar
  let stop := l.length - l.reverse.indexOf rbraceChar
  String.mk ((l.drop start).take (stop - start))

/-- The structured generation payload expected from the adapter. -/
structure MemeData where
  text : String
  format : Option String
  irony_level : String
  topics : List String
  explanation : String
deriving Repr, DecidableEq

/-- The best-effort record both fallback paths of
LLMService._parse_meme_response build: raw stripped text with unknown
and empty metadata, differing only in the explanation note. -/
def fallback_meme (content reason : String) : MemeData :=
  { text := content.trim, format := none, irony_level := "unknown"
    topics := [], explanation := reason }

/-- LLMService._parse_meme_response (services/llm_service.py lines 153
to 181). The JSON decoder is a parameter returning none where
json.loads would raise; the raised exception is caught by the handler
in the source, which returns the second fallback record. -/
def parse_meme_response (jsonLoads : String → Option MemeData) (content : String) :
    MemeData :=
  if content.toList.contains lbraceChar && content.toList.contains rbraceChar then
    match jsonLoads (brace_slice content) with
    | some r => r
    | none => fallback_meme content "Parse error"
  else fallback_meme content "Generated without structured format"

/-- C9: for every adapter response and every JSON decoder, when the
response holds no decodable JSON object — no brace pair at all, or a
slice the decoder rejects — the parser still returns a record whose
text is the stripped raw response and whose metadata fields are the
unknown and empty defaults; it never fails. -/
theorem C9_parse_never_fails (jsonLoads : String → Option MemeData) (content : String)
    (h : (content.toList.contains lbraceChar && content.toList.contains rbraceChar) = false
       ∨ jsonLoads (brace_slice content) = none) :
    (parse_meme_response jsonLoads content).text = content.trim
      ∧ (parse_meme_response jsonLoads content).format = none
      ∧ (parse_meme_response jsonLoads content).irony_level = "unknown"
      ∧ (parse_meme_response jsonLoads content).topics = [] := by
  unfold parse_meme_response
  rcases h with h | h
  · simp at h
    by_cases hA : lbraceChar ∈ content.data
    · simp [hA, h hA, fallback_meme]
    · simp [hA, fallback_meme]
  · split
    · simp [h, fallback_meme]
    · simp [fallback_meme]

/-- A concrete adapter response containing no JSON at all. -/
def sampleRaw : String := "just vibes"

/-- A closed instance of C9 at a braceless response and an
always-failing decoder. -/
theorem C9_parse_never_fails_witness :
    ((sampleRaw.toList.contains lbraceChar && sampleRaw.toList.contains rbraceChar) = false)
    ∧ ((parse_meme_response (fun _ => none) sampleRaw).text = sampleRaw.trim
      ∧ (parse_meme_response (fun _ => none) sampleRaw).format = none
      ∧ (parse_meme_response (fun _ => none) sampleRaw).irony_level = "unknown"
      ∧ (parse_meme_response (fun _ => none) sampleRaw).topics = []) :=
  ⟨by decide, C9_parse_never_fails (fun _ => none) sampleRaw (Or.inl (by decide))⟩

/-- A parsed self-evaluation payload: every key may be absent, matching
dictionary access through .get with a default in the source. -/
structure MemeEvaluation where
  humor_score : Option ℚ
  authenticity_score : Option ℚ
  engagement_score : Option ℚ
  overall_score : Option ℚ
  should_post : Option Bool
  risks : Option String
  feedback : Option String
deriving Repr, DecidableEq

/-- The dictionary returned by both failure paths of
LLMService.evaluate_generated_meme: only should_post true and
overall_score 5 are present. -/
def default_evaluation : MemeEvaluation :=
  { humor_score := none, authenticity_score := none, engagement_score := none
    overall_score := some 5, should_post := some true, risks := none, feedback := none }

/-- LLMService.evaluate_generated_meme (services/llm_service.py lines
248 to 308): the adapter response is none where the call would raise
(the handler in the source returns the same default), and the JSON
decoder is a parameter as in the parser. -/
def evaluate_generated_meme (jsonLoads : String → Option MemeEvaluation)
    (response : Option String) : MemeEvaluation :=
  match response with
  | none => default_evaluation
  | some content =>
      if content.toList.contains lbraceChar && content.toList.contains rbraceChar then
        match jsonLoads (brace_slice content) with
        | some ev => ev
        | none => default_evaluation
      else default_evaluation

/-- The result dictionary of ContentGenerator.generate_meme_tweet. -/
structure GeneratedMeme where
  text : String
  meme_format : Option String
  irony_level : String
  topics : List String
  trend_context : String
  quality_score : ℚ
  should_post : Bool
  evaluation : MemeEvaluation
deriving Repr, DecidableEq

/-- ContentGenerator.generate_meme_tweet (bot/content_generator.py
lines 28 to 90). Context selection and enrichment only shape the prompt
handed to the adapter and are absorbed into the generation parameter
genF; both adapters are indexed by call count, and the returned pair of
naturals counts the generation and evaluation calls made. -/
def generate_meme_tweet (context irony_level : String)
    (genF : ℕ → MemeData) (evalF : ℕ → String → MemeEvaluation) :
    GeneratedMeme × ℕ × ℕ :=
  let md0 := genF 0
  let ev0 := evalF 0 md0.text
  if ev0.overall_score.getD 0 < 5 then
    let md1 := genF 1
    let ev1 := evalF 1 md1.text
    ({ text := md1.text, meme_format := md1.format, irony_level := irony_level
       topics := md1.topics, trend_context := context
       quality_score := ev1.overall_score.getD 5
       should_post := ev1.should_post.getD true
       evaluation := ev1 }, 2, 2)
  else
    ({ text := md0.text, meme_format := md0.format, irony_level := irony_level
       topics := md0.topics, trend_context := context
       quality_score := ev0.overall_score.getD 5
       should_post := ev0.should_post.getD true
       evaluation := ev0 }, 1, 1)

/-- C4: the evaluator is called at most twice per generate run; when
the first overall score is below 5 there is exactly one more
generation and evaluation and the second output is accepted whatever
its score, and when the first score is at least 5 no regeneration
happens at all. -/
theorem C4_one_retry_cap (c i : String) (genF : ℕ → MemeData)
    (evalF : ℕ → String → MemeEvaluation) :
    (generate_meme_tweet c i genF evalF).2.2 ≤ 2
    ∧ ((evalF 0 (genF 0).text).overall_score.getD 0 < 5 →
        (generate_meme_tweet c i genF evalF).2.2 = 2
          ∧ (generate_meme_tweet c i genF evalF).1.text = (genF 1).text
          ∧ (generate_meme_tweet c i genF evalF).1.evaluation = evalF 1 (genF 1).text)
    ∧ (¬ (evalF 0 (genF 0).text).overall_score.getD 0 < 5 →
        (generate_meme_tweet c i genF evalF).2.2 = 1
          ∧ (generate_meme_tweet c i genF evalF).1.evaluation = evalF 0 (genF 0).text) := by
  unfold generate_meme_tweet
  by_cases h : (evalF 0 (genF 0).text).overall_score.getD 0 < 5 <;> simp [h]

/-- A fixed generation stub. -/
def stubMeme : MemeData :=
  { text := "m", format := none, irony_level := "x", topics := [], explanation := "" }

/-- An evaluator stub that always scores 0 overall. -/
def zeroEval : MemeEvaluation :=
  { humor_score := none, authenticity_score := none, engagement_score := none
    overall_score := some 0, should_post := none, risks := none, feedback := none }

/-- A fixed context string for closed instances. -/
def sampleContext : String := "ctx"

/-- A fixed irony level for closed instances. -/
def sampleIrony : String := "ironic"

/-- A closed instance of C4: with the always-zero evaluator the
evaluator is called exactly twice. -/
theorem C4_one_retry_cap_witness :
    (((fun _ _ => zeroEval : ℕ → String → MemeEvaluation) 0
        ((fun _ => stubMeme : ℕ → MemeData) 0).text).overall_score.getD 0 < 5)
    ∧ (generate_meme_tweet sampleContext sampleIrony
        (fun _ => stubMeme) (fun _ _ => zeroEval)).2.2 = 2 := by
  have h := C4_one_retry_cap sampleContext sampleIrony (fun _ => stubMeme) (fun _ _ => zeroEval)
  exact ⟨by norm_num [zeroEval], (h.2.1 (by norm_num [zeroEval])).1⟩

/-- C10: whenever the evaluation adapter call raises or its response
holds no decodable JSON object, the evaluation is exactly the record
with should_post true and overall_score 5; that score is not below the
regeneration threshold and that flag passes the auto-post gate, so with
such an evaluator a generate run evaluates exactly once and comes out
marked postable: evaluation failure defaults to approval. -/
theorem C10_eval_failure_defaults_approve (jsonLoads : String → Option MemeEvaluation)
    (response : Option String)
    (h : response = none
       ∨ ∃ content, response = some content
          ∧ ((content.toList.contains lbraceChar && content.toList.contains rbraceChar) = false
             ∨ jsonLoads (brace_slice content) = none)) :
    evaluate_generated_meme jsonLoads response = default_evaluation
    ∧ ¬ ((evaluate_generated_meme jsonLoads response).overall_score.getD 0 < 5)
    ∧ (evaluate_generated_meme jsonLoads response).should_post.getD true = true
    ∧ (∀ (c i : String) (genF : ℕ → MemeData),
        (generate_meme_tweet c i genF
            (fun _ _ => evaluate_generated_meme jsonLoads response)).2.2 = 1
        ∧ (generate_meme_tweet c i genF
            (fun _ _ => evaluate_generated_meme jsonLoads response)).1.should_post = true) := by
  have hd : evaluate_generated_meme jsonLoads response = default_evaluation := by
    rcases h with h | ⟨content, hc, h⟩
    · simp [evaluate_generated_meme, h]
    · subst hc
      simp only [evaluate_generated_meme]
      rcases h with h | h
      · simp at h
        by_cases hA : lbraceChar ∈ content.data
        · simp [hA, h hA]
        · simp [hA]
      · split
        · simp [h]
        · rfl
  refine ⟨hd, ?_, ?_, ?_⟩
  · rw [hd]; norm_num [default_evaluation]
  · rw [hd]; rfl
  · intro c i genF
    rw [hd]
    constructor <;> norm_num [generate_meme_tweet, default_evaluation]

/-- A closed instance of C10: a raising adapter call yields the default
approval record and a single evaluation call in a generate run. -/
theorem C10_eval_failure_defaults_approve_witness :
    ((none : Option String) = none)
    ∧ evaluate_generated_meme (fun _ => none) none = default_evaluation
    ∧ (generate_meme_tweet sampleContext sampleIrony (fun _ => stubMeme)
        (fun _ _ => evaluate_generated_meme (fun _ => none) none)).2.2 = 1 := by
  have h := C10_eval_failure_defaults_approve (fun _ => none) none (Or.inl rfl)
  exact ⟨rfl, h.1, (h.2.2.2 sampleContext sampleIrony (fun _ => stubMeme)).1⟩

/-- A ContentQueue row as assembled by generate_content_to_queue. -/
structure QueueRow where
  content : String
  meme_format : Option String
  irony_level : String
  topics : List String
  trend_context : String
  quality_score : ℚ
  humor_score : ℚ
  authenticity_score : ℚ
  engagement_score : ℚ
  evaluation_data : MemeEvaluation
  generation_prompt : String
  status : String
deriving Repr, DecidableEq

/-- The ContentQueue row built by MemeBot.generate_content_to_queue
(bot/scheduler.py lines 199 to 212) from a generate result. -/
def content_queue_row (meme : GeneratedMeme) : QueueRow :=
  { content := meme.text
    meme_format := meme.meme_format
    irony_level := meme.irony_level
    topics := meme.topics
    trend_context := meme.trend_context
    quality_score := meme.quality_score
    humor_score := meme.evaluation.humor_score.getD 0
    authenticity_score := meme.evaluation.authenticity_score.getD 0
    engagement_score := meme.evaluation.engagement_score.getD 0
    evaluation_data := meme.evaluation
    generation_prompt := meme.trend_context
    status := "pending" }

/-- MemeBot.generate_content_to_queue (bot/scheduler.py lines 178 to
223): a none generate result aborts with no write, otherwise exactly
one row is appended to the queue. -/
def generate_content_to_queue (meme : Option GeneratedMeme) (queue : List QueueRow) :
    List QueueRow :=
  match meme with
  | none => queue
  | some m => queue ++ [content_queue_row m]

/-- C7: a successful generator-mode run appends exactly one candidate
row, in status pending, whose quality score is the evaluation's overall
score and which embeds the humor, authenticity and engagement scores
and the full evaluation payload. -/
theorem C7_generator_mode_persists_pending
    (c i : String) (genF : ℕ → MemeData) (evalF : ℕ → String → MemeEvaluation)
    (queue : List QueueRow) (q : ℚ)
    (h : (generate_meme_tweet c i genF evalF).1.evaluation.overall_score = some q) :
    generate_content_to_queue (some (generate_meme_tweet c i genF evalF).1) queue
        = queue ++ [content_queue_row (generate_meme_tweet c i genF evalF).1]
    ∧ (generate_content_to_queue (some (generate_meme_tweet c i genF evalF).1) queue).length
        = queue.length + 1
    ∧ (content_queue_row (generate_meme_tweet c i genF evalF).1).status = "pending"
    ∧ (content_queue_row (generate_meme_tweet c i genF evalF).1).quality_score = q
    ∧ (content_queue_row (generate_meme_tweet c i genF evalF).1).humor_score
        = (generate_meme_tweet c i genF evalF).1.evaluation.humor_score.getD 0
    ∧ (content_queue_row (generate_meme_tweet c i genF evalF).1).authenticity_score
        = (generate_meme_tweet c i genF evalF).1.evaluation.authenticity_score.getD 0
    ∧ (content_queue_row (generate_meme_tweet c i genF evalF).1).engagement_score
        = (generate_meme_tweet c i genF evalF).1.evaluation.engagement_score.getD 0
    ∧ (content_queue_row (generate_meme_tweet c i genF evalF).1).evaluation_data
        = (generate_meme_tweet c i genF evalF).1.evaluation := by
  have hq : (generate_meme_tweet c i genF evalF).1.quality_score
      = (generate_meme_tweet c i genF evalF).1.evaluation.overall_score.getD 5 := by
    unfold generate_meme_tweet
    dsimp only
    split <;> rfl
  refine ⟨rfl, by simp [generate_content_to_queue], rfl, ?_, rfl, rfl, rfl, rfl⟩
  show (generate_meme_tweet c i genF evalF).1.quality_score = q
  rw [hq, h]
  rfl

/-- An evaluator stub that scores 8 overall on every call. -/
def eightEval : MemeEvaluation :=
  { humor_score := some 7, authenticity_score := some 6, engagement_score := some 7
    overall_score := some 8, should_post := some true, risks := none, feedback := none }

/-- A closed instance of C7: the overall-8 stub yields exactly one
pending candidate with quality score 8. -/
theorem C7_generator_mode_persists_pending_witness :
    ((generate_meme_tweet sampleContext sampleIrony (fun _ => stubMeme)
        (fun _ _ => eightEval)).1.evaluation.overall_score = some 8)
    ∧ (generate_content_to_queue
        (some (generate_meme_tweet sampleContext sampleIrony (fun _ => stubMeme)
          (fun _ _ => eightEval)).1) ([] : List QueueRow)).length
        = ([] : List QueueRow).length + 1
    ∧ (content_queue_row (generate_meme_tweet sampleContext sampleIrony (fun _ => stubMeme)
        (fun _ _ => eightEval)).1).status = "pending"
    ∧ (content_queue_row (generate_meme_tweet sampleContext sampleIrony (fun _ => stubMeme)
        (fun _ _ => eightEval)).1).quality_score = 8 := by
  have hov : (generate_meme_tweet sampleContext sampleIrony (fun _ => stubMeme)
      (fun _ _ => eightEval)).1.evaluation.overall_score = some 8 := by
    norm_num [generate_meme_tweet, eightEval]
  have h := C7_generator_mode_persists_pending sampleContext sampleIrony
    (fun _ => stubMeme) (fun _ _ => eightEval) ([] : List QueueRow) 8 hov
  exact ⟨hov, h.2.1, h.2.2.1, h.2.2.2.1⟩

/-- A Tweet row (database/models.py), restricted to the fields the
auto-post path reads or writes. -/
structure TweetRec where
  tweet_id : String
  content : String
  image_url : Option String
  meme_format : Option String
  irony_level : Option String
  topics : List String
  trend_context : Option String
deriving Repr, DecidableEq

/-- TwitterClient.post_tweet (bot/twitter_client.py): the publishing
adapter returns the external id and one Tweet row is saved. -/
def post_tweet (publishF : String → String) (tweets : List TweetRec) (text : String) :
    List TweetRec × String :=
  let tid := publishF text
  (tweets ++ [{ tweet_id := tid, content := text, image_url := none, meme_format := none
                irony_level := none, topics := [], trend_context := none }], tid)

/-- The whole persisted state the auto-post path can touch. -/
structure BotStore where
  tweets : List TweetRec
  queue : List QueueRow
  trends : List MemeTrend
deriving Repr, DecidableEq

/-- MemeBot.post_meme (bot/scheduler.py lines 225 to 271): a none
generate result or a false should_post flag aborts before the
publishing adapter is called; otherwise the tweet is posted, saved, and
its row enriched with the generation metadata. The natural number
returned counts publishing-adapter calls. -/
def post_meme (meme : Option GeneratedMeme) (publishF : String → String) (st : BotStore) :
    BotStore × ℕ :=
  match meme with
  | none => (st, 0)
  | some m =>
      if m.should_post = false then (st, 0)
      else
        let pr := post_tweet publishF st.tweets m.text
        let tweets2 := updateFirst (fun t => t.tweet_id == pr.2)
          (fun t => { t with meme_format := m.meme_format, irony_level := some m.irony_level,
                             topics := m.topics, trend_context := some m.trend_context }) pr.1
        ({ st with tweets := tweets2 }, 1)

/-- C8: in auto-post mode, when the final evaluation carries
should_post false the run returns with the whole persisted state
unchanged — no published item, no candidate, no trend write — and the
publishing adapter is called zero times. -/
theorem C8_abort_without_side_effect
    (c i : String) (genF : ℕ → MemeData) (evalF : ℕ → String → MemeEvaluation)
    (publishF : String → String) (st : BotStore)
    (h : (generate_meme_tweet c i genF evalF).1.evaluation.should_post = some false) :
    post_meme (some (generate_meme_tweet c i genF evalF).1) publishF st = (st, 0) := by
  have hs : (generate_meme_tweet c i genF evalF).1.should_post = false := by
    have hgd : (generate_meme_tweet c i genF evalF).1.should_post
        = (generate_meme_tweet c i genF evalF).1.evaluation.should_post.getD true := by
      unfold generate_meme_tweet
      dsimp only
      split <;> rfl
    rw [hgd, h]
    rfl
  simp [post_meme, hs]

/-- An evaluator stub that vetoes posting on every call. -/
def vetoEval : MemeEvaluation :=
  { humor_score := none, authenticity_score := none, engagement_score := none
    overall_score := some 9, should_post := some false, risks := none, feedback := none }

/-- An empty persisted state. -/
def emptyStore : BotStore := { tweets := [], queue := [], trends := [] }

/-- A closed instance of C8: the vetoing evaluator leaves the empty
store untouched with zero publish calls. -/
theorem C8_abort_without_side_effect_witness :
    ((generate_meme_tweet sampleContext sampleIrony (fun _ => stubMeme)
        (fun _ _ => vetoEval)).1.evaluation.should_post = some false)
    ∧ post_meme (some (generate_meme_tweet sampleContext sampleIrony (fun _ => stubMeme)
        (fun _ _ => vetoEval)).1) (fun t => t) emptyStore = (emptyStore, 0) := by
  have hv : (generate_meme_tweet sampleContext sampleIrony (fun _ => stubMeme)
      (fun _ _ => vetoEval)).1.evaluation.should_post = some false := by
    norm_num [generate_meme_tweet, vetoEval]
  exact ⟨hv, C8_abort_without_side_effect sampleContext sampleIrony (fun _ => stubMeme)
    (fun _ _ => vetoEval) (fun t => t) emptyStore hv⟩
